import Mathlib

/-!
Verification of the EX_AWAD_REGISTRATION_BE authentication backend.

Shallow embedding of the JavaScript source:
  * `src/utils/validation.js`   — email/password validation, email sanitization
  * `src/models/User.js`        — credential store operations (Postgres-backed)
  * `src/services/AuthService.js` — register/login/token issuance/verification
  * `src/controllers/AuthController.js` + `src/routes/*` — HTTP status mapping
  * `src/middleware/auth.js`    — request gate and the fixed-window rate limiter
  * `index.js`                  — the legacy standalone variant (handleRegister,
                                  /api/login, /api/logout)

External libraries are modelled by their contracts:
  * bcrypt: `bcryptHash` pairs a per-call salt with the plaintext; comparison
    succeeds exactly when the plaintext matches the hashed one.
  * jsonwebtoken: a token records its payload, expiry and the signing secret;
    verification succeeds exactly when the secrets agree and the clock has not
    reached the expiry (signature is checked before expiry, as in the library).
  * Postgres: queries are represented by their result (`Except` of a row list);
    the healthy path is computed from an in-memory list of user rows.

JavaScript strings are modelled as Lean `String`; `trim`/`toLowerCase` are
modelled character-wise (`trimChars`/`lowerChars`), and the `\s` class of the
email regex by `Char.isWhitespace` (an ASCII-faithful approximation).
-/

/-- Decidable equality for `Except`, used to evaluate embedded operations at
concrete inputs. -/
instance {ε α : Type} [DecidableEq ε] [DecidableEq α] : DecidableEq (Except ε α)
  | .ok a, .ok b =>
    if h : a = b then .isTrue (by rw [h]) else .isFalse (by simp [h])
  | .ok _, .error _ => .isFalse (by simp)
  | .error _, .ok _ => .isFalse (by simp)
  | .error a, .error b =>
    if h : a = b then .isTrue (by rw [h]) else .isFalse (by simp [h])

/-! ## Strings: JS trim / toLowerCase -/

/-- `String.prototype.trim`: drop leading and trailing whitespace. -/
def trimChars (cs : List Char) : List Char :=
  ((cs.dropWhile Char.isWhitespace).reverse.dropWhile Char.isWhitespace).reverse

/-- `String.prototype.toLowerCase`, character-wise. -/
def lowerChars (cs : List Char) : List Char :=
  cs.map Char.toLower

/-! ## `src/utils/validation.js` -/

/-- A character admitted by the `[^\s@]` class of the email regex. -/
def isEmailChar (c : Char) : Bool :=
  !c.isWhitespace && c != '@'

/-- Split a character list at the first occurrence of `c`; `none` if absent. -/
def splitAtFirst (c : Char) : List Char → Option (List Char × List Char)
  | [] => none
  | x :: xs =>
    if x = c then some ([], xs)
    else
      match splitAtFirst c xs with
      | some (l, r) => some (x :: l, r)
      | none => none

/-- Is there a `.` somewhere in the list with at least one character after it? -/
def dotWithTail : List Char → Bool
  | [] => false
  | c :: rest => (c == '.' && !rest.isEmpty) || dotWithTail rest

/-- Does the list contain a `.` preceded and followed by at least one
character?  This is `[^\s@]+\.[^\s@]+` once all characters are known to be
email characters. -/
def hasInnerDot : List Char → Bool
  | [] => false
  | _ :: rest => dotWithTail rest

/-- The regex `^[^\s@]+@[^\s@]+\.[^\s@]+$` from `validation.js` and
`index.js`: one `@` with a nonempty whitespace-free local part before it and a
domain containing an inner dot after it. -/
def emailShape (cs : List Char) : Bool :=
  match splitAtFirst '@' cs with
  | none => false
  | some (loc, dom) =>
    !loc.isEmpty && loc.all isEmailChar && dom.all isEmailChar && hasInnerDot dom

/-- `validateEmail` from `validation.js`: the regex is tested against
`email.trim().toLowerCase()` (the empty string never matches). -/
def validateEmail (email : String) : Bool :=
  emailShape (lowerChars (trimChars email.data))

/-- `sanitizeEmail` from `validation.js`: `email.trim().toLowerCase()`. -/
def sanitizeEmail (email : String) : String :=
  ⟨lowerChars (trimChars email.data)⟩

/-- A per-field validation message, as pushed onto the `errors` array. -/
structure FieldError where
  field : String
  message : String
deriving DecidableEq

/-- `validatePassword` from `validation.js`: `some msg` is the invalid case. -/
def validatePassword (password : String) : Option String :=
  if password = "" then some "Password is required"
  else if password.length < 6 then some "Password must be at least 6 characters long"
  else if password.length > 128 then some "Password must be less than 128 characters long"
  else none

/-- Request body `{email, password}`; an absent JS field is the empty string
(both are falsy). -/
structure Credentials where
  email : String
  password : String
deriving DecidableEq

/-- `validateRegistrationData` from `validation.js`. -/
def validateRegistrationData (data : Credentials) : List FieldError :=
  (if data.email = "" then [⟨"email", "Email is required"⟩]
   else if validateEmail data.email then []
   else [⟨"email", "Please enter a valid email address"⟩])
  ++ (match validatePassword data.password with
      | some m => [⟨"password", m⟩]
      | none => [])

/-- `validateLoginData` from `validation.js`: like registration but only
presence of the password is checked. -/
def validateLoginData (data : Credentials) : List FieldError :=
  (if data.email = "" then [⟨"email", "Email is required"⟩]
   else if validateEmail data.email then []
   else [⟨"email", "Please enter a valid email address"⟩])
  ++ (if data.password = "" then [⟨"password", "Password is required"⟩] else [])

/-! ## bcrypt (external library, modelled by contract) -/

/-- A bcrypt hash value: an opaque pairing of a per-call salt with the hashed
plaintext.  `bcrypt.compare` succeeds exactly on the original plaintext. -/
structure HashValue where
  salt : Nat
  plaintext : String
deriving DecidableEq

/-- `bcrypt.hash(plaintext, 10)` with the salt drawn for this call. -/
def bcryptHash (salt : Nat) (plaintext : String) : HashValue :=
  ⟨salt, plaintext⟩

/-- `bcrypt.compare(plaintext, hash)`. -/
def bcryptCompare (plaintext : String) (h : HashValue) : Bool :=
  h.plaintext = plaintext

/-! ## `src/models/User.js` -/

/-- A row of the `users` table as carried by the `User` class.  `passwordHash`
is `none` when the row was selected without its `password` column (as
`findById` does). -/
structure User where
  id : Nat
  email : String
  passwordHash : Option HashValue
  created_at : Nat
deriving DecidableEq

/-- `toSafeObject`: the user record without the password. -/
structure SafeUser where
  id : Nat
  email : String
  created_at : Nat
deriving DecidableEq

/-- `User.prototype.toSafeObject`. -/
def User.toSafeObject (u : User) : SafeUser :=
  ⟨u.id, u.email, u.created_at⟩

/-- `User.prototype.verifyPassword`: `bcrypt.compare` against the stored hash;
any comparison error (for instance a missing hash column) is caught and
reported as `false`. -/
def User.verifyPassword (u : User) (password : String) : Bool :=
  match u.passwordHash with
  | none => false
  | some h => bcryptCompare password h

/-- The rows returned by `SELECT ... FROM users WHERE email = $1`. -/
def dbSelectByEmail (store : List User) (email : String) : List User :=
  store.filter (fun u => u.email = email)

/-- The rows returned by `SELECT id, email, created_at FROM users WHERE id = $1`
(the `password` column is not selected). -/
def dbSelectById (store : List User) (id : Nat) : List User :=
  (store.filter (fun u => u.id = id)).map (fun u => { u with passwordHash := none })

/-- The body of `User.findByEmail` applied to the outcome of the database
query: a query error is caught and yields `null`; an empty row set yields
`null`; otherwise the first row. -/
def User.findByEmailRows (r : Except String (List User)) : Option User :=
  match r with
  | .error _ => none
  | .ok rows => rows.head?

/-- The body of `User.findById` applied to the outcome of the database query;
same error handling as `findByEmailRows`. -/
def User.findByIdRows (r : Except String (List User)) : Option User :=
  match r with
  | .error _ => none
  | .ok rows => rows.head?

/-- `User.findByEmail` on a healthy database holding `store`. -/
def User.findByEmail (store : List User) (email : String) : Option User :=
  User.findByEmailRows (.ok (dbSelectByEmail store email))

/-- `User.findById` on a healthy database holding `store`. -/
def User.findById (store : List User) (id : Nat) : Option User :=
  User.findByIdRows (.ok (dbSelectById store id))

/-- `User.create` on a healthy database: validates, rejects an existing email,
hashes and inserts.  `salt` models the entropy drawn by `bcrypt.hash`,
`nextId` the id assigned by the `SERIAL` column and `nowTs` the row timestamp.
Returns the created user together with the updated store. -/
def User.create (store : List User) (salt nextId nowTs : Nat)
    (email password : String) : Except String (User × List User) :=
  if email = "" ∨ ¬ validateEmail email then
    .error "Invalid email format"
  else if password = "" ∨ password.length < 6 then
    .error "Password must be at least 6 characters"
  else
    match User.findByEmail store email with
    | some _ => .error "User already exists"
    | none =>
      let u : User := ⟨nextId, email, some (bcryptHash salt password), nowTs⟩
      .ok (u, store ++ [u])

/-! ## jsonwebtoken (external library, modelled by contract) -/

/-- A JWT as issued by `jwt.sign`: the claim set together with the secret the
signature binds it to, or an arbitrary malformed string presented as a
token. -/
inductive Token where
  | signed (userId : Nat) (email : String) (iat exp : Nat) (secret : String)
  | malformed (raw : String)
deriving DecidableEq

/-- The decoded claim set. -/
structure JwtPayload where
  userId : Nat
  email : String
  iat : Nat
  exp : Nat
deriving DecidableEq

/-- The two failures of `jwt.verify`: `TokenExpiredError` and the generic
`JsonWebTokenError` (bad signature or malformed input). -/
inductive JwtError where
  | expired
  | invalid
deriving DecidableEq

/-- `jwt.sign(payload, secret, { expiresIn })` at time `now` (seconds). -/
def jwtSign (userId : Nat) (email : String) (secret : String)
    (expiresIn now : Nat) : Token :=
  .signed userId email now (now + expiresIn) secret

/-- `jwt.verify(token, secret)` at time `now`: the signature is checked first
(mismatched secret or malformed input is `JsonWebTokenError`), then the clock
against `exp` (`TokenExpiredError` when `now` has reached it). -/
def jwtVerify (t : Token) (secret : String) (now : Nat) :
    Except JwtError JwtPayload :=
  match t with
  | .malformed _ => .error .invalid
  | .signed userId email iat exp sec =>
    if sec = secret then
      if exp ≤ now then .error .expired
      else .ok ⟨userId, email, iat, exp⟩
    else .error .invalid

/-! ## `src/services/AuthService.js` -/

/-- The error classes thrown by `AuthService`, plus the generic `Error`
rethrown as an internal failure. -/
inductive AuthError where
  | validation (message : String) (errors : List FieldError)
  | auth (message : String)
  | tokenExpired (message : String)
  | internal (message : String)
deriving DecidableEq

/-- The `AuthService` constructor configuration: the two signing secrets and
the two expiries.  Durations are in seconds; the environment defaults are
`change_me` / `change_me_refresh` with `15m` = 900 s and `7d` = 604800 s. -/
structure AuthConfig where
  jwtSecret : String
  jwtRefreshSecret : String
  accessTokenExpiry : Nat
  refreshTokenExpiry : Nat
deriving DecidableEq

/-- The configuration built from the environment defaults. -/
def defaultConfig : AuthConfig :=
  ⟨"change_me", "change_me_refresh", 900, 604800⟩

/-- The value returned by `generateTokens`. -/
structure TokenPair where
  accessToken : Token
  refreshToken : Token
  accessTokenExpiry : Nat
  refreshTokenExpiry : Nat
deriving DecidableEq

/-- `AuthService.generateTokens`: both tokens carry `{userId, email}`; the
access token is signed with `jwtSecret`, the refresh token with
`jwtRefreshSecret`. -/
def AuthService.generateTokens (cfg : AuthConfig) (u : User) (now : Nat) : TokenPair :=
  ⟨jwtSign u.id u.email cfg.jwtSecret cfg.accessTokenExpiry now,
   jwtSign u.id u.email cfg.jwtRefreshSecret cfg.refreshTokenExpiry now,
   cfg.accessTokenExpiry, cfg.refreshTokenExpiry⟩

/-- The success value of `AuthService.register`. -/
structure RegisterOk where
  success : Bool
  message : String
  user : SafeUser
deriving DecidableEq

/-- `AuthService.register`: validate, sanitize the email, create the user.
A create failure with message `User already exists` is surfaced as a
`ValidationError`; any other create failure is logged and rethrown as a
generic error.  Returns the response together with the updated store. -/
def AuthService.register (store : List User) (salt nextId nowTs : Nat)
    (userData : Credentials) : Except AuthError (RegisterOk × List User) :=
  let validationErrors := validateRegistrationData userData
  if validationErrors ≠ [] then
    .error (.validation "Validation failed" validationErrors)
  else
    match User.create store salt nextId nowTs (sanitizeEmail userData.email) userData.password with
    | .error msg =>
      if msg = "User already exists" then
        .error (.validation "Registration failed"
          [⟨"email", "An account with this email already exists"⟩])
      else
        .error (.internal "Registration failed. Please try again.")
    | .ok (u, store') =>
      .ok (⟨true, "Account created successfully! You can now log in with your credentials.",
            u.toSafeObject⟩, store')

/-- The success value of `AuthService.login`. -/
structure LoginOk where
  success : Bool
  user : SafeUser
  accessToken : Token
  refreshToken : Token
  accessTokenExpiry : Nat
  refreshTokenExpiry : Nat
deriving DecidableEq

/-- `AuthService.login`: validate, sanitize the email, look the user up
through `fetchByEmail` (the `User.findByEmail` call), verify the password and
issue the token pair.  The missing-user and wrong-password failures throw the
same `AuthenticationError`. -/
def AuthService.login (fetchByEmail : String → Option User) (cfg : AuthConfig)
    (credentials : Credentials) (now : Nat) : Except AuthError LoginOk :=
  let validationErrors := validateLoginData credentials
  if validationErrors ≠ [] then
    .error (.validation "Validation failed" validationErrors)
  else
    match fetchByEmail (sanitizeEmail credentials.email) with
    | none => .error (.auth "Invalid email or password")
    | some u =>
      if ¬ u.verifyPassword credentials.password then
        .error (.auth "Invalid email or password")
      else
        let tokens := AuthService.generateTokens cfg u now
        .ok ⟨true, u.toSafeObject, tokens.accessToken, tokens.refreshToken,
             tokens.accessTokenExpiry, tokens.refreshTokenExpiry⟩

/-- `AuthService.verifyAccessToken`: `jwt.verify` against `jwtSecret`,
re-raising expiry as `TokenExpiredError` and any other JWT failure as
`AuthenticationError`, then a re-fetch of the identity through `fetchById`
(the `User.findById` call). -/
def AuthService.verifyAccessToken (cfg : AuthConfig) (fetchById : Nat → Option User)
    (token : Token) (now : Nat) : Except AuthError User :=
  match jwtVerify token cfg.jwtSecret now with
  | .error .expired => .error (.tokenExpired "Access token expired")
  | .error .invalid => .error (.auth "Invalid access token")
  | .ok decoded =>
    match fetchById decoded.userId with
    | none => .error (.auth "User not found")
    | some u => .ok u

/-- `AuthService.verifyRefreshToken`: as `verifyAccessToken` but against
`jwtRefreshSecret` with the refresh-flavoured messages. -/
def AuthService.verifyRefreshToken (cfg : AuthConfig) (fetchById : Nat → Option User)
    (token : Token) (now : Nat) : Except AuthError User :=
  match jwtVerify token cfg.jwtRefreshSecret now with
  | .error .expired => .error (.tokenExpired "Refresh token expired")
  | .error .invalid => .error (.auth "Invalid refresh token")
  | .ok decoded =>
    match fetchById decoded.userId with
    | none => .error (.auth "User not found")
    | some u => .ok u

/-! ## `src/controllers/AuthController.js` — HTTP status mapping -/

/-- The controller mapping for `POST /register`: 201 on success, 400 for a
`ValidationError`, 500 otherwise. -/
def registerHttp (r : Except AuthError (RegisterOk × List User)) : Nat × String :=
  match r with
  | .ok _ => (201, "")
  | .error (.validation _ _) => (400, "Validation failed")
  | .error _ => (500, "Registration failed. Please try again.")

/-- The controller mapping for `POST /login`: 200 on success, 400 for a
`ValidationError`, 401 with the thrown message for an `AuthenticationError`,
500 otherwise. -/
def loginHttp (r : Except AuthError LoginOk) : Nat × String :=
  match r with
  | .ok _ => (200, "Login successful")
  | .error (.validation _ _) => (400, "Validation failed")
  | .error (.auth m) => (401, m)
  | .error _ => (500, "Login failed. Please try again.")

/-! ## `src/middleware/auth.js` — request gate -/

/-- The outcome of the `verifyToken` middleware: either a JSON rejection
(status, message, code) or the request proceeds with the identity attached. -/
inductive MwOutcome where
  | reject (status : Nat) (message : String) (code : String)
  | proceed (u : User)
deriving DecidableEq

/-- `AuthMiddleware.verifyToken`: missing bearer token is `NO_TOKEN`;
`TokenExpiredError` is `TOKEN_EXPIRED`; `AuthenticationError` is
`INVALID_TOKEN` carrying the thrown message; any other error hits the outer
catch as a 500. -/
def AuthMiddleware.verifyToken (cfg : AuthConfig) (fetchById : Nat → Option User)
    (bearer : Option Token) (now : Nat) : MwOutcome :=
  match bearer with
  | none => .reject 401 "Access token required" "NO_TOKEN"
  | some token =>
    match AuthService.verifyAccessToken cfg fetchById token now with
    | .ok u => .proceed u
    | .error (.tokenExpired _) => .reject 401 "Access token expired" "TOKEN_EXPIRED"
    | .error (.auth m) => .reject 401 m "INVALID_TOKEN"
    | .error (.validation _ _) => .reject 500 "Authentication verification failed" ""
    | .error (.internal _) => .reject 500 "Authentication verification failed" ""

/-! ## `POST /logout` pipeline -/

/-- The observable result of a logout request: HTTP status, `success` flag,
message, and whether the auth cookies were cleared. -/
structure LogoutHttp where
  status : Nat
  success : Bool
  message : String
  cookiesCleared : Bool
deriving DecidableEq

/-- `AuthController.logout` once reached: `authService.logout()` always
returns `{success: true}` (the service layer is a stateless no-op), so the
handler clears both auth cookies and replies 200.  (The catch branch, which
clears cookies but replies 500 `Logout completed with warnings`, is
unreachable because the service never throws.) -/
def AuthController.logoutResponse : LogoutHttp :=
  ⟨200, true, "Logged out successfully", true⟩

/-- The `/logout` route as wired in `src/routes/auth.js`:
`router.post('/logout', authMiddleware.verifyToken, authController.logout)`.
A middleware rejection replies with the middleware status and does not clear
any cookie; only when the middleware proceeds does the controller run. -/
def logoutPipeline (cfg : AuthConfig) (fetchById : Nat → Option User)
    (bearer : Option Token) (now : Nat) : LogoutHttp :=
  match AuthMiddleware.verifyToken cfg fetchById bearer now with
  | .reject status message _ => ⟨status, false, message, false⟩
  | .proceed _ => AuthController.logoutResponse

/-- The legacy `POST /api/logout` in `index.js`: unconditionally clears the
`token` cookie and replies `{ok: true}` with status 200, whatever the request
carried. -/
def apiLogout : LogoutHttp :=
  ⟨200, true, "ok", true⟩

/-! ## `AuthMiddleware.rateLimiter` -/

/-- The in-memory `requests` map: insertion-ordered association list from
client address to its recorded timestamps (milliseconds). -/
abbrev ReqMap := List (String × List Int)

/-- `Map.prototype.get`. -/
def mapGet (m : ReqMap) (k : String) : Option (List Int) :=
  match m with
  | [] => none
  | (k', v) :: rest => if k' = k then some v else mapGet rest k

/-- `Map.prototype.set`: update in place, else append. -/
def mapSet (m : ReqMap) (k : String) (v : List Int) : ReqMap :=
  match m with
  | [] => [(k, v)]
  | (k', v') :: rest => if k' = k then (k, v) :: rest else (k', v') :: mapSet rest k v

/-- `Math.ceil(a / b)` for integers with `b > 0`. -/
def mathCeilDiv (a b : Int) : Int :=
  -((-a).ediv b)

/-- The stale-entry sweep run when the map holds more than 1000 keys: each
entry is filtered to the current window; entries left empty are deleted. -/
def pruneMap (m : ReqMap) (windowStart : Int) : ReqMap :=
  match m with
  | [] => []
  | (k, ts) :: rest =>
    let valid := ts.filter (fun t => windowStart < t)
    if valid = [] then pruneMap rest windowStart
    else (k, valid) :: pruneMap rest windowStart

/-- Configuration of one `rateLimiter(maxRequests, windowMs)` instance.
`devSkip` is `isDev && DISABLE_RATE_LIMIT === 'true'`. -/
structure RateConfig where
  maxRequests : Nat
  windowMs : Int
  devSkip : Bool
deriving DecidableEq

/-- The decision taken for one request.  In `rejected`, `retryAfter` is
`none` when `recentRequests[0]` was `undefined` (a NaN in the source, only
possible with `maxRequests = 0`). -/
inductive RateDecision where
  | skipped
  | admitted
  | rejected (retryAfter : Option Int) (limit : Nat) (windowSec : Int) (current : Nat)
deriving DecidableEq

/-- One request through the closure returned by `AuthMiddleware.rateLimiter`:
optional dev skip; the opportunistic prune when the map exceeds 1000 keys;
the window check for the client address; on rejection a 429 with the
retry-after hint from the oldest in-window timestamp, on admission the
current timestamp is appended.  Returns the decision with the updated map. -/
def rateLimiterStep (cfg : RateConfig) (m : ReqMap) (ip : String) (now : Int) :
    RateDecision × ReqMap :=
  if cfg.devSkip then (.skipped, m)
  else
    let windowStart := now - cfg.windowMs
    let m1 := if m.length > 1000 then pruneMap m windowStart else m
    let ipRequests := (mapGet m1 ip).getD []
    let recentRequests := ipRequests.filter (fun t => windowStart < t)
    if recentRequests.length ≥ cfg.maxRequests then
      (.rejected (recentRequests.head?.map (fun t0 => mathCeilDiv (t0 + cfg.windowMs - now) 1000))
        cfg.maxRequests (mathCeilDiv cfg.windowMs 1000) recentRequests.length, m1)
    else
      (.admitted, mapSet m1 ip (recentRequests ++ [now]))

/-! ## `index.js` — legacy standalone endpoints -/

/-- The reply of `handleRegister` in `index.js`. -/
inductive ApiRegisterResult where
  | badRequest (errors : List FieldError)
  | created (id : Nat) (email : String) (created_at : Nat)
  | conflict
deriving DecidableEq

/-- `handleRegister` from `index.js`: field checks (the email regex is tested
against the raw body value — no trim, no lowercasing), then the bare
`INSERT`; a Postgres `23505` unique violation replies 409.  The email is
stored exactly as supplied. -/
def handleRegister (store : List User) (salt nextId nowTs : Nat)
    (email password : String) : ApiRegisterResult × List User :=
  let errors :=
    (if email = "" then [(⟨"email", "Email is required"⟩ : FieldError)]
     else if emailShape email.data then []
     else [⟨"email", "Invalid email format"⟩])
    ++ (if password = "" then [(⟨"password", "Password is required"⟩ : FieldError)]
        else if password.length < 6 then [⟨"password", "Password must be at least 6 characters"⟩]
        else [])
  if errors ≠ [] then (.badRequest errors, store)
  else if (store.filter (fun u => u.email = email)) ≠ [] then (.conflict, store)
  else
    let u : User := ⟨nextId, email, some (bcryptHash salt password), nowTs⟩
    (.created nextId email nowTs, store ++ [u])

/-- The reply of `POST /api/login` in `index.js`. -/
inductive ApiLoginResult where
  | badRequest
  | unauthorized
  | serverError
  | ok (id : Nat) (email : String) (token : Token)
deriving DecidableEq

/-- `POST /api/login` from `index.js`: presence check, exact-match lookup of
the email as supplied, `bcrypt.compare`, then an 8-hour token in a cookie.
Both the missing-user and wrong-password branches reply 401
`Invalid credentials`. -/
def apiLogin (store : List User) (jwtSecret : String) (now : Nat)
    (email password : String) : ApiLoginResult :=
  if email = "" ∨ password = "" then .badRequest
  else
    match (store.filter (fun u => u.email = email)).head? with
    | none => .unauthorized
    | some u =>
      match u.passwordHash with
      | none => .serverError
      | some h =>
        if bcryptCompare password h then
          .ok u.id u.email (jwtSign u.id u.email jwtSecret (8 * 3600) now)
        else .unauthorized

/-! ## JSON shape of the register response (for serialization claims) -/

/-- A fragment of the JSON values the server serializes. -/
inductive Json where
  | str (s : String)
  | num (n : Nat)
  | bool (b : Bool)
  | obj (fields : List (String × Json))

/-- The keys of a JSON object. -/
def jsonKeys : Json → List String
  | .obj fields => fields.map Prod.fst
  | _ => []

/-- Field lookup in a JSON object. -/
def jsonGet (k : String) : Json → Option Json
  | .obj fields => lookupField fields
  | _ => none
where lookupField : List (String × Json) → Option Json
  | [] => none
  | (k', v) :: rest => if k' = k then some v else lookupField rest

/-- The serialization of `toSafeObject`. -/
def renderSafeUser (u : SafeUser) : Json :=
  .obj [("id", .num u.id), ("email", .str u.email), ("created_at", .num u.created_at)]

/-- The serialization of the register success response as built by
`AuthService.register` and passed through `res.status(201).json(result)`. -/
def renderRegisterOk (r : RegisterOk) : Json :=
  .obj [("success", .bool r.success), ("message", .str r.message),
        ("user", renderSafeUser r.user)]

/-! ## C1 — login failures are indistinguishable -/

/-- C1: for every store and login request, a login against a store with no
matching user and a login against a store whose matching user has a different
password throw the identical `AuthenticationError` with message
`Invalid email or password`, and the controller maps both to the identical
(401, message) reply, so the two failure runs are indistinguishable. -/
theorem login_failure_indistinguishable (cfg : AuthConfig) (store₁ store₂ : List User)
    (creds : Credentials) (now₁ now₂ : Nat)
    (hv : validateLoginData creds = [])
    (h₁ : User.findByEmail store₁ (sanitizeEmail creds.email) = none)
    (h₂ : ∃ u, User.findByEmail store₂ (sanitizeEmail creds.email) = some u ∧
          u.verifyPassword creds.password = false) :
    AuthService.login (User.findByEmail store₁) cfg creds now₁ =
      .error (.auth "Invalid email or password") ∧
    AuthService.login (User.findByEmail store₂) cfg creds now₂ =
      .error (.auth "Invalid email or password") ∧
    loginHttp (AuthService.login (User.findByEmail store₁) cfg creds now₁) =
      (401, "Invalid email or password") ∧
    loginHttp (AuthService.login (User.findByEmail store₁) cfg creds now₁) =
      loginHttp (AuthService.login (User.findByEmail store₂) cfg creds now₂) := by
  obtain ⟨u, hu, hpw⟩ := h₂
  have e₁ : AuthService.login (User.findByEmail store₁) cfg creds now₁ =
      .error (.auth "Invalid email or password") := by
    simp [AuthService.login, hv, h₁]
  have e₂ : AuthService.login (User.findByEmail store₂) cfg creds now₂ =
      .error (.auth "Invalid email or password") := by
    simp [AuthService.login, hv, hu, hpw]
  exact ⟨e₁, e₂, by rw [e₁]; rfl, by rw [e₁, e₂]⟩

/-- Concrete user for the C1 witness: registered with a password other than
the one the login attempt presents. -/
def wUserC1 : User := ⟨1, "a@test.com", some ⟨0, "hunter2"⟩, 0⟩

/-- Witness for C1: no-such-user and wrong-password runs at concrete inputs
produce the identical error and 401 reply. -/
theorem login_failure_indistinguishable_witness :
    AuthService.login (User.findByEmail []) defaultConfig ⟨"a@test.com", "secret1"⟩ 0 =
      .error (.auth "Invalid email or password") ∧
    AuthService.login (User.findByEmail [wUserC1]) defaultConfig ⟨"a@test.com", "secret1"⟩ 0 =
      .error (.auth "Invalid email or password") ∧
    loginHttp (AuthService.login (User.findByEmail []) defaultConfig ⟨"a@test.com", "secret1"⟩ 0) =
      (401, "Invalid email or password") ∧
    loginHttp (AuthService.login (User.findByEmail []) defaultConfig ⟨"a@test.com", "secret1"⟩ 0) =
      loginHttp (AuthService.login (User.findByEmail [wUserC1]) defaultConfig ⟨"a@test.com", "secret1"⟩ 0) :=
  login_failure_indistinguishable defaultConfig [] [wUserC1] ⟨"a@test.com", "secret1"⟩ 0 0
    (by decide) (by decide) ⟨wUserC1, by decide, by decide⟩

/-! ## C2 — verification distinguishes expiry from invalidity -/

/-- C2: access-token verification distinguishes its failures: a token whose
secret matches but whose expiry has passed fails with `TokenExpiredError`;
a token signed with a different secret, or a malformed token, fails with
`AuthenticationError (Invalid access token)`; and the token issued by
`generateTokens`, verified while the clock is before its expiry and the
subject is in the store, succeeds and returns the subject. -/
theorem verifyAccessToken_trichotomy (cfg : AuthConfig) (fetchById : Nat → Option User)
    (userId : Nat) (email : String) (iat exp now : Nat) (sec raw : String)
    (u : User) (issuedAt now' : Nat) :
    (sec = cfg.jwtSecret → exp ≤ now →
      AuthService.verifyAccessToken cfg fetchById (.signed userId email iat exp sec) now =
        .error (.tokenExpired "Access token expired")) ∧
    (sec ≠ cfg.jwtSecret →
      AuthService.verifyAccessToken cfg fetchById (.signed userId email iat exp sec) now =
        .error (.auth "Invalid access token")) ∧
    (AuthService.verifyAccessToken cfg fetchById (.malformed raw) now =
      .error (.auth "Invalid access token")) ∧
    (fetchById u.id = some u → now' < issuedAt + cfg.accessTokenExpiry →
      AuthService.verifyAccessToken cfg fetchById
        ((AuthService.generateTokens cfg u issuedAt).accessToken) now' = .ok u) := by
  refine ⟨?_, ?_, ?_, ?_⟩
  · intro hsec hexp
    simp [AuthService.verifyAccessToken, jwtVerify, hsec, hexp]
  · intro hsec
    simp [AuthService.verifyAccessToken, jwtVerify, hsec]
  · simp [AuthService.verifyAccessToken, jwtVerify]
  · intro hfetch hfresh
    simp [AuthService.verifyAccessToken, AuthService.generateTokens, jwtSign, jwtVerify,
      Nat.not_le.mpr hfresh, hfetch]

/-- Concrete user for the C2 witness. -/
def wUserC2 : User := ⟨1, "a@test.com", some ⟨0, "secret1"⟩, 0⟩

/-- Concrete identity lookup for the C2 witness. -/
def wFetchC2 : Nat → Option User :=
  fun id => if id = 1 then some wUserC2 else none

/-- Witness for C2: the three failure shapes and the fresh-success case at
concrete inputs. -/
theorem verifyAccessToken_trichotomy_witness :
    AuthService.verifyAccessToken defaultConfig wFetchC2
      (.signed 1 "a@test.com" 0 5 "change_me") 10 =
        .error (.tokenExpired "Access token expired") ∧
    AuthService.verifyAccessToken defaultConfig wFetchC2
      (.signed 1 "a@test.com" 0 5 "wrong_secret") 1 =
        .error (.auth "Invalid access token") ∧
    AuthService.verifyAccessToken defaultConfig wFetchC2 (.malformed "garbage") 1 =
      .error (.auth "Invalid access token") ∧
    AuthService.verifyAccessToken defaultConfig wFetchC2
      ((AuthService.generateTokens defaultConfig wUserC2 0).accessToken) 100 = .ok wUserC2 :=
  ⟨(verifyAccessToken_trichotomy defaultConfig wFetchC2 1 "a@test.com" 0 5 10 "change_me"
      "garbage" wUserC2 0 100).1 rfl (by decide),
   (verifyAccessToken_trichotomy defaultConfig wFetchC2 1 "a@test.com" 0 5 1 "wrong_secret"
      "garbage" wUserC2 0 100).2.1 (by decide),
   (verifyAccessToken_trichotomy defaultConfig wFetchC2 1 "a@test.com" 0 5 1 "change_me"
      "garbage" wUserC2 0 100).2.2.1,
   (verifyAccessToken_trichotomy defaultConfig wFetchC2 1 "a@test.com" 0 5 1 "change_me"
      "garbage" wUserC2 0 100).2.2.2 (by decide) (by decide)⟩

/-! ## C3 — cross-kind verification fails -/

/-- C3: when the configured access and refresh secrets differ, the access
token of every issued pair fails refresh verification and the refresh token
fails access verification, each with the signature-failure
`AuthenticationError`, at every verification time. -/
theorem cross_kind_verification_fails (cfg : AuthConfig) (fetchById : Nat → Option User)
    (u : User) (issuedAt now : Nat)
    (hsec : cfg.jwtSecret ≠ cfg.jwtRefreshSecret) :
    AuthService.verifyRefreshToken cfg fetchById
      ((AuthService.generateTokens cfg u issuedAt).accessToken) now =
        .error (.auth "Invalid refresh token") ∧
    AuthService.verifyAccessToken cfg fetchById
      ((AuthService.generateTokens cfg u issuedAt).refreshToken) now =
        .error (.auth "Invalid access token") := by
  constructor
  · simp [AuthService.verifyRefreshToken, AuthService.generateTokens, jwtSign, jwtVerify, hsec]
  · simp [AuthService.verifyAccessToken, AuthService.generateTokens, jwtSign, jwtVerify,
      Ne.symm hsec]

/-- Witness for C3: the default configuration has distinct secrets and both
cross-kind verifications fail at a concrete input. -/
theorem cross_kind_verification_fails_witness :
    AuthService.verifyRefreshToken defaultConfig wFetchC2
      ((AuthService.generateTokens defaultConfig wUserC2 0).accessToken) 1 =
        .error (.auth "Invalid refresh token") ∧
    AuthService.verifyAccessToken defaultConfig wFetchC2
      ((AuthService.generateTokens defaultConfig wUserC2 0).refreshToken) 1 =
        .error (.auth "Invalid access token") :=
  cross_kind_verification_fails defaultConfig wFetchC2 wUserC2 0 1 (by decide)

/-! ## C4 — duplicate registration is a validation error, never a 500 -/

/-- Inversion of a passing registration validation. -/
theorem validateRegistrationData_eq_nil {creds : Credentials}
    (h : validateRegistrationData creds = []) :
    creds.email ≠ "" ∧ validateEmail creds.email = true ∧
    validatePassword creds.password = none := by
  unfold validateRegistrationData at h
  rw [List.append_eq_nil] at h
  obtain ⟨h₁, h₂⟩ := h
  refine ⟨?_, ?_, ?_⟩
  · intro he
    simp [he] at h₁
  · by_cases hve : validateEmail creds.email
    · exact hve
    · split at h₁ <;> simp_all
  · cases hvp : validatePassword creds.password with
    | none => rfl
    | some m => simp [hvp] at h₂

/-- Inversion of a passing password validation. -/
theorem validatePassword_eq_none {p : String} (h : validatePassword p = none) :
    p ≠ "" ∧ ¬ p.length < 6 ∧ ¬ p.length > 128 := by
  unfold validatePassword at h
  split_ifs at h
  simp_all

/-- C4: registering an email already present in the store — case-insensitively
equal after normalization, under the store invariant that the register path
only persists normalized, regex-valid emails — always fails with the
field-level duplicate `ValidationError`, which the controller surfaces as a
400, never as a generic 500. -/
theorem register_duplicate_email (store : List User) (salt nextId nowTs : Nat)
    (creds : Credentials)
    (hv : validateRegistrationData creds = [])
    (hnorm : ∀ u ∈ store, u.email = sanitizeEmail u.email ∧ validateEmail u.email = true)
    (hdup : ∃ u ∈ store, sanitizeEmail u.email = sanitizeEmail creds.email) :
    AuthService.register store salt nextId nowTs creds =
      .error (.validation "Registration failed"
        [⟨"email", "An account with this email already exists"⟩]) ∧
    registerHttp (AuthService.register store salt nextId nowTs creds) =
      (400, "Validation failed") := by
  obtain ⟨u, hu, heq⟩ := hdup
  obtain ⟨hunorm, huval⟩ := hnorm u hu
  have hue : u.email = sanitizeEmail creds.email := hunorm.trans heq
  have hval : validateEmail (sanitizeEmail creds.email) = true := hue ▸ huval
  have hne : sanitizeEmail creds.email ≠ "" := by
    intro h0
    rw [h0] at hval
    exact absurd hval (by decide)
  obtain ⟨-, -, hvp⟩ := validateRegistrationData_eq_nil hv
  obtain ⟨hp₁, hp₂, -⟩ := validatePassword_eq_none hvp
  have hfind : ∃ v, User.findByEmail store (sanitizeEmail creds.email) = some v := by
    unfold User.findByEmail User.findByEmailRows dbSelectByEmail
    have hmem : u ∈ store.filter (fun w => w.email = sanitizeEmail creds.email) := by
      rw [List.mem_filter]
      exact ⟨hu, by simp [hue]⟩
    cases hcase : store.filter (fun w => w.email = sanitizeEmail creds.email) with
    | nil => rw [hcase] at hmem; cases hmem
    | cons a l => exact ⟨a, rfl⟩
  obtain ⟨v, hfind⟩ := hfind
  have hreg : AuthService.register store salt nextId nowTs creds =
      .error (.validation "Registration failed"
        [⟨"email", "An account with this email already exists"⟩]) := by
    simp [AuthService.register, hv, User.create, hne, hval, hp₁, hp₂, hfind]
  exact ⟨hreg, by rw [hreg]; rfl⟩

/-- Concrete stored user for the C4 witness: registered as `a@test.com`. -/
def wUserC4 : User := ⟨1, "a@test.com", some ⟨0, "secret1"⟩, 0⟩

/-- Witness for C4: registering ` A@Test.com ` against a store holding
`a@test.com` yields the duplicate validation error and a 400. -/
theorem register_duplicate_email_witness :
    AuthService.register [wUserC4] 7 2 5 ⟨" A@Test.com ", "secret2"⟩ =
      .error (.validation "Registration failed"
        [⟨"email", "An account with this email already exists"⟩]) ∧
    registerHttp (AuthService.register [wUserC4] 7 2 5 ⟨" A@Test.com ", "secret2"⟩) =
      (400, "Validation failed") :=
  register_duplicate_email [wUserC4] 7 2 5 ⟨" A@Test.com ", "secret2"⟩
    (by decide) (by decide) ⟨wUserC4, by decide, by decide⟩

/-! ## C5 — register/login email normalization -/

/-- A list with no head is empty. -/
theorem eq_nil_of_head?_eq_none {α : Type} {l : List α} (h : l.head? = none) : l = [] := by
  cases l <;> simp_all

/-- Inversion of a successful `User.create`. -/
theorem User.create_ok {store : List User} {salt nextId nowTs : Nat}
    {email password : String} {u : User} {store' : List User}
    (h : User.create store salt nextId nowTs email password = .ok (u, store')) :
    u = ⟨nextId, email, some (bcryptHash salt password), nowTs⟩ ∧
    store' = store ++ [u] ∧
    User.findByEmail store email = none ∧
    email ≠ "" ∧ validateEmail email = true ∧
    password ≠ "" ∧ ¬ password.length < 6 := by
  unfold User.create at h
  by_cases h₁ : email = "" ∨ ¬ validateEmail email
  · rw [if_pos h₁] at h
    cases h
  rw [if_neg h₁] at h
  by_cases h₂ : password = "" ∨ password.length < 6
  · rw [if_pos h₂] at h
    cases h
  rw [if_neg h₂] at h
  push_neg at h₁ h₂
  cases hf : User.findByEmail store email with
  | some v =>
    rw [hf] at h
    cases h
  | none =>
    rw [hf] at h
    simp only [Except.ok.injEq, Prod.mk.injEq] at h
    obtain ⟨hu, hs⟩ := h
    refine ⟨hu.symm, ?_, rfl, h₁.1, by simpa using h₁.2, h₂.1, by omega⟩
    rw [← hs, hu]

/-- Inversion of a successful `AuthService.register`. -/
theorem AuthService.register_ok {store : List User} {salt nextId nowTs : Nat}
    {creds : Credentials} {r : RegisterOk} {store' : List User}
    (h : AuthService.register store salt nextId nowTs creds = .ok (r, store')) :
    validateRegistrationData creds = [] ∧
    ∃ u : User,
      User.create store salt nextId nowTs (sanitizeEmail creds.email) creds.password =
        .ok (u, store') ∧
      r = ⟨true, "Account created successfully! You can now log in with your credentials.",
           u.toSafeObject⟩ := by
  unfold AuthService.register at h
  by_cases hv : validateRegistrationData creds = []
  · rw [if_neg (not_not_intro hv)] at h
    refine ⟨hv, ?_⟩
    cases hc : User.create store salt nextId nowTs (sanitizeEmail creds.email) creds.password with
    | error msg =>
      rw [hc] at h
      rcases eq_or_ne msg "User already exists" with hm | hm
      · simp [hm] at h
      · simp [hm] at h
    | ok p =>
      obtain ⟨u₀, st₀⟩ := p
      rw [hc] at h
      simp only [Except.ok.injEq, Prod.mk.injEq] at h
      obtain ⟨hr, hs⟩ := h
      subst hs
      exact ⟨u₀, rfl, hr.symm⟩
  · rw [if_pos hv] at h
    cases h

/-- A passing registration validation implies a passing login validation. -/
theorem validateLoginData_of_registration {creds : Credentials}
    (h : validateRegistrationData creds = []) : validateLoginData creds = [] := by
  obtain ⟨he, hve, hvp⟩ := validateRegistrationData_eq_nil h
  obtain ⟨hp, -, -⟩ := validatePassword_eq_none hvp
  simp [validateLoginData, he, hve, hp]

/-- C5 (amended): on the `AuthService` path, whenever `register` succeeds,
the returned identity carries the trimmed lowercased email, and a login with
the very same credentials against the updated store succeeds and returns that
same normalized email.  (The legacy `handleRegister`/`/api/login` pair in
`index.js` stores and looks the email up verbatim — see the
counterexample.) -/
theorem register_then_login_roundtrip (cfg : AuthConfig) (store : List User)
    (salt nextId nowTs now : Nat) (creds : Credentials)
    (r : RegisterOk) (store' : List User)
    (hreg : AuthService.register store salt nextId nowTs creds = .ok (r, store')) :
    r.user.email = sanitizeEmail creds.email ∧
    ∃ l : LoginOk,
      AuthService.login (User.findByEmail store') cfg creds now = .ok l ∧
      l.success = true ∧ l.user.email = sanitizeEmail creds.email := by
  obtain ⟨hv, u, hc, hr⟩ := AuthService.register_ok hreg
  obtain ⟨hu, hs, hnone, -, -, -, -⟩ := User.create_ok hc
  have huemail : u.email = sanitizeEmail creds.email := by rw [hu]
  have hfilter : dbSelectByEmail store (sanitizeEmail creds.email) = [] := by
    unfold User.findByEmail User.findByEmailRows at hnone
    exact eq_nil_of_head?_eq_none hnone
  have hfind : User.findByEmail store' (sanitizeEmail creds.email) = some u := by
    unfold User.findByEmail User.findByEmailRows
    rw [hs]
    unfold dbSelectByEmail at hfilter ⊢
    rw [List.filter_append, hfilter]
    simp [huemail]
  have hpw : u.verifyPassword creds.password = true := by
    rw [hu]
    simp [User.verifyPassword, bcryptCompare, bcryptHash]
  have hvl := validateLoginData_of_registration hv
  refine ⟨by rw [hr, hu]; rfl, ?_⟩
  refine ⟨⟨true, u.toSafeObject,
    (AuthService.generateTokens cfg u now).accessToken,
    (AuthService.generateTokens cfg u now).refreshToken,
    (AuthService.generateTokens cfg u now).accessTokenExpiry,
    (AuthService.generateTokens cfg u now).refreshTokenExpiry⟩, ?_, rfl, ?_⟩
  · simp [AuthService.login, hvl, hfind, hpw]
  · simpa [User.toSafeObject] using huemail

/-- The register response of the C5/C6 witness run. -/
def wRegOk : RegisterOk :=
  ⟨true, "Account created successfully! You can now log in with your credentials.",
   ⟨1, "a@test.com", 0⟩⟩

/-- The store produced by the C5/C6 witness run. -/
def wStore : List User := [⟨1, "a@test.com", some ⟨0, "secret1"⟩, 0⟩]

/-- Witness for the amended C5: registering `A@Test.com` stores and returns
`a@test.com`, and the subsequent login with the same credentials succeeds. -/
theorem register_then_login_roundtrip_witness :
    AuthService.register [] 0 1 0 ⟨"A@Test.com", "secret1"⟩ = .ok (wRegOk, wStore) ∧
    wRegOk.user.email = sanitizeEmail "A@Test.com" ∧
    AuthService.login (User.findByEmail wStore) defaultConfig ⟨"A@Test.com", "secret1"⟩ 0 =
      .ok ⟨true, ⟨1, "a@test.com", 0⟩,
           .signed 1 "a@test.com" 0 900 "change_me",
           .signed 1 "a@test.com" 0 604800 "change_me_refresh", 900, 604800⟩ := by
  have hreg : AuthService.register [] 0 1 0 ⟨"A@Test.com", "secret1"⟩ = .ok (wRegOk, wStore) := by
    decide
  exact ⟨hreg, (register_then_login_roundtrip defaultConfig [] 0 1 0 0
    ⟨"A@Test.com", "secret1"⟩ wRegOk wStore hreg).1, by decide⟩

/-- Counterexample to C5 as stated: the cited `handleRegister` in `index.js`
stores the email exactly as supplied — registering `A@Test.com` stores
`A@Test.com`, not the normalization `a@test.com`, and the `index.js` login
with the normalized form finds no user and replies 401. -/
theorem handleRegister_does_not_normalize :
    (handleRegister [] 0 1 0 "A@Test.com" "secret1").2.map (fun u => u.email) =
      ["A@Test.com"] ∧
    (handleRegister [] 0 1 0 "A@Test.com" "secret1").2.map (fun u => u.email) ≠
      ["a@test.com"] ∧
    apiLogin (handleRegister [] 0 1 0 "A@Test.com" "secret1").2 "change_me" 0
      "a@test.com" "secret1" = .unauthorized :=
  ⟨by decide, by decide, by decide⟩

/-! ## C6 — registration returns the identity, no hash, no tokens -/

/-- C6: every successful registration appends exactly one user and returns its
`toSafeObject`; the serialized response carries only the keys `success`,
`message` and `user`, the user object only `id`, `email` and `created_at` —
in particular no `accessToken`, `refreshToken` or `password` field exists
anywhere in the reply, so registration never auto-authenticates. -/
theorem register_response_has_no_tokens (store : List User) (salt nextId nowTs : Nat)
    (creds : Credentials) (r : RegisterOk) (store' : List User)
    (h : AuthService.register store salt nextId nowTs creds = .ok (r, store')) :
    (∃ u : User, store' = store ++ [u] ∧ r.user = u.toSafeObject) ∧
    jsonKeys (renderRegisterOk r) = ["success", "message", "user"] ∧
    jsonGet "accessToken" (renderRegisterOk r) = none ∧
    jsonGet "refreshToken" (renderRegisterOk r) = none ∧
    jsonKeys (renderSafeUser r.user) = ["id", "email", "created_at"] ∧
    jsonGet "password" (renderSafeUser r.user) = none := by
  obtain ⟨-, u, hc, hr⟩ := AuthService.register_ok h
  obtain ⟨-, hs, -, -, -, -, -⟩ := User.create_ok hc
  exact ⟨⟨u, hs, by rw [hr]⟩, rfl, rfl, rfl, rfl, rfl⟩

/-- Witness for C6: the concrete registration reply has exactly the documented
keys and no token or password field. -/
theorem register_response_has_no_tokens_witness :
    jsonKeys (renderRegisterOk wRegOk) = ["success", "message", "user"] ∧
    jsonGet "accessToken" (renderRegisterOk wRegOk) = none ∧
    jsonGet "refreshToken" (renderRegisterOk wRegOk) = none ∧
    jsonKeys (renderSafeUser wRegOk.user) = ["id", "email", "created_at"] ∧
    jsonGet "password" (renderSafeUser wRegOk.user) = none := by
  have hreg : AuthService.register [] 0 1 0 ⟨"A@Test.com", "secret1"⟩ = .ok (wRegOk, wStore) := by
    decide
  have h := register_response_has_no_tokens [] 0 1 0 ⟨"A@Test.com", "secret1"⟩ wRegOk wStore hreg
  exact ⟨h.2.1, h.2.2.1, h.2.2.2.1, h.2.2.2.2.1, h.2.2.2.2.2⟩

/-! ## C7 — logout -/

/-- Counterexample to C7 as stated: a logout request presenting no access
token at all is rejected by the `verifyToken` middleware guarding the route
with status 401 and no cookie-clearing — not every logout request is reported
as a 200 success. -/
theorem logout_without_token_is_401 :
    logoutPipeline defaultConfig wFetchC2 none 0 =
      ⟨401, false, "Access token required", false⟩ ∧
    (logoutPipeline defaultConfig wFetchC2 none 0).status ≠ 200 ∧
    (logoutPipeline defaultConfig wFetchC2 none 0).cookiesCleared = false :=
  ⟨rfl, by decide, rfl⟩

/-- C7 (amended): a logout request whose bearer token passes access-token
verification always clears both auth cookies and is reported as a 200
success (the service-layer logout never fails, so the controller's 500
fallback is unreachable); a request rejected by the middleware never reaches
the handler, and the legacy unauthenticated `/api/logout` always clears the
cookie and replies 200. -/
theorem logout_with_valid_token_succeeds (cfg : AuthConfig)
    (fetchById : Nat → Option User) (t : Token) (now : Nat) (u : User)
    (h : AuthService.verifyAccessToken cfg fetchById t now = .ok u) :
    logoutPipeline cfg fetchById (some t) now =
      ⟨200, true, "Logged out successfully", true⟩ ∧
    apiLogout = ⟨200, true, "ok", true⟩ := by
  constructor
  · simp [logoutPipeline, AuthMiddleware.verifyToken, h, AuthController.logoutResponse]
  · rfl

/-- Witness for the amended C7: a concrete fresh token passes verification and
the logout pipeline clears cookies and replies 200. -/
theorem logout_with_valid_token_succeeds_witness :
    logoutPipeline defaultConfig wFetchC2
      (some (.signed 1 "a@test.com" 0 900 "change_me")) 5 =
      ⟨200, true, "Logged out successfully", true⟩ ∧
    apiLogout = ⟨200, true, "ok", true⟩ :=
  logout_with_valid_token_succeeds defaultConfig wFetchC2
    (.signed 1 "a@test.com" 0 900 "change_me") 5 wUserC2 (by decide)

/-! ## C9 — store failures degrade to 401, never 500 -/

/-- C9: whatever error the underlying query produces, `findByEmail` and
`findById` swallow it and return `null`; consequently a login over a failing
store throws the generic `AuthenticationError (Invalid email or password)`
mapped to a 401, and verification of a well-signed fresh token over a failing
store throws `AuthenticationError (User not found)` which the request gate
maps to a 401 `INVALID_TOKEN` rejection — neither path is a 500. -/
theorem db_error_is_401 (cfg : AuthConfig) (creds : Credentials) (eMsg : String)
    (userId : Nat) (email : String) (iat exp now : Nat)
    (hv : validateLoginData creds = [])
    (hfresh : now < exp) :
    User.findByEmailRows (.error eMsg) = none ∧
    User.findByIdRows (.error eMsg) = none ∧
    AuthService.login (fun _ => User.findByEmailRows (.error eMsg)) cfg creds now =
      .error (.auth "Invalid email or password") ∧
    loginHttp (AuthService.login (fun _ => User.findByEmailRows (.error eMsg)) cfg creds now) =
      (401, "Invalid email or password") ∧
    AuthService.verifyAccessToken cfg (fun _ => User.findByIdRows (.error eMsg))
      (.signed userId email iat exp cfg.jwtSecret) now =
        .error (.auth "User not found") ∧
    AuthMiddleware.verifyToken cfg (fun _ => User.findByIdRows (.error eMsg))
      (some (.signed userId email iat exp cfg.jwtSecret)) now =
        .reject 401 "User not found" "INVALID_TOKEN" := by
  have hlogin : AuthService.login (fun _ => User.findByEmailRows (.error eMsg)) cfg creds now =
      .error (.auth "Invalid email or password") := by
    simp [AuthService.login, hv, User.findByEmailRows]
  have hverify : AuthService.verifyAccessToken cfg (fun _ => User.findByIdRows (.error eMsg))
      (.signed userId email iat exp cfg.jwtSecret) now =
        .error (.auth "User not found") := by
    simp [AuthService.verifyAccessToken, jwtVerify, Nat.not_le.mpr hfresh, User.findByIdRows]
  refine ⟨rfl, rfl, hlogin, by rw [hlogin]; rfl, hverify, ?_⟩
  simp [AuthMiddleware.verifyToken, hverify]

/-- Witness for C9: a concrete failing query during login and during token
verification, both surfacing as 401. -/
theorem db_error_is_401_witness :
    User.findByEmailRows (.error "connection refused") = none ∧
    User.findByIdRows (.error "connection refused") = none ∧
    AuthService.login (fun _ => User.findByEmailRows (.error "connection refused"))
      defaultConfig ⟨"a@test.com", "secret1"⟩ 0 =
        .error (.auth "Invalid email or password") ∧
    loginHttp (AuthService.login (fun _ => User.findByEmailRows (.error "connection refused"))
      defaultConfig ⟨"a@test.com", "secret1"⟩ 0) = (401, "Invalid email or password") ∧
    AuthService.verifyAccessToken defaultConfig
      (fun _ => User.findByIdRows (.error "connection refused"))
      (.signed 1 "a@test.com" 0 900 defaultConfig.jwtSecret) 5 =
        .error (.auth "User not found") ∧
    AuthMiddleware.verifyToken defaultConfig
      (fun _ => User.findByIdRows (.error "connection refused"))
      (some (.signed 1 "a@test.com" 0 900 defaultConfig.jwtSecret)) 5 =
        .reject 401 "User not found" "INVALID_TOKEN" :=
  db_error_is_401 defaultConfig ⟨"a@test.com", "secret1"⟩ "connection refused"
    1 "a@test.com" 0 900 5 (by decide) (by decide)

/-! ## Rate limiter lemmas (C8, C10) -/

/-- A key absent from the association list has no entry. -/
theorem mapGet_eq_none_of_not_mem {m : ReqMap} {k : String}
    (h : k ∉ m.map Prod.fst) : mapGet m k = none := by
  induction m with
  | nil => rfl
  | cons e rest ih =>
    obtain ⟨k', v⟩ := e
    simp only [List.map_cons, List.mem_cons, not_or] at h
    unfold mapGet
    rw [if_neg (fun hk => h.1 hk.symm)]
    exact ih h.2

/-- Pruning never introduces an entry for an absent key. -/
theorem pruneMap_get_none {m : ReqMap} {ws : Int} {k : String}
    (h : mapGet m k = none) : mapGet (pruneMap m ws) k = none := by
  induction m with
  | nil => rfl
  | cons e rest ih =>
    obtain ⟨k', ts⟩ := e
    unfold mapGet at h
    by_cases hk : k' = k
    · rw [if_pos hk] at h
      cases h
    · rw [if_neg hk] at h
      unfold pruneMap
      by_cases hv : ts.filter (fun t => ws < t) = []
      · simp only [hv, if_pos]
        exact ih h
      · simp only [hv, if_neg, ite_false]
        unfold mapGet
        rw [if_neg hk]
        exact ih h

/-- Unfolding equation for `mapGet` on a nonempty map. -/
theorem mapGet_cons (k' : String) (v : List Int) (rest : ReqMap) (k : String) :
    mapGet ((k', v) :: rest) k = if k' = k then some v else mapGet rest k := rfl

/-- Pruning preserves each key's in-window timestamps (keys are unique, as in
a JS `Map`). -/
theorem pruneMap_get_filter {m : ReqMap} (ws : Int) (k : String)
    (hnodup : (m.map Prod.fst).Nodup) :
    ((mapGet (pruneMap m ws) k).getD []).filter (fun t => ws < t) =
    ((mapGet m k).getD []).filter (fun t => ws < t) := by
  induction m with
  | nil => rfl
  | cons e rest ih =>
    obtain ⟨k', ts⟩ := e
    simp only [List.map_cons, List.nodup_cons] at hnodup
    obtain ⟨hknotin, hnodup'⟩ := hnodup
    by_cases hk : k' = k
    · subst hk
      have hrest : mapGet rest k' = none := mapGet_eq_none_of_not_mem hknotin
      unfold pruneMap
      by_cases hv : ts.filter (fun t => ws < t) = []
      · simp only [hv, if_pos]
        rw [pruneMap_get_none hrest]
        unfold mapGet
        rw [if_pos rfl]
        simp [hv]
      · simp only [hv, if_neg, ite_false]
        unfold mapGet
        rw [if_pos rfl, if_pos rfl]
        simp [List.filter_filter]
    · unfold pruneMap
      by_cases hv : ts.filter (fun t => ws < t) = []
      · simp only [hv, if_pos]
        rw [ih hnodup', mapGet_cons, if_neg hk]
      · simp only [hv, if_neg, ite_false]
        rw [mapGet_cons, if_neg hk, mapGet_cons, if_neg hk]
        exact ih hnodup'

/-- Every timestamp surviving a prune was already recorded for that key. -/
theorem pruneMap_get_subset {m : ReqMap} {ws : Int} {k : String} {t : Int}
    (hnodup : (m.map Prod.fst).Nodup)
    (ht : t ∈ (mapGet (pruneMap m ws) k).getD []) :
    t ∈ (mapGet m k).getD [] := by
  induction m with
  | nil => exact ht
  | cons e rest ih =>
    obtain ⟨k', ts⟩ := e
    simp only [List.map_cons, List.nodup_cons] at hnodup
    obtain ⟨hknotin, hnodup'⟩ := hnodup
    by_cases hk : k' = k
    · subst hk
      have hrest : mapGet rest k' = none := mapGet_eq_none_of_not_mem hknotin
      unfold pruneMap at ht
      by_cases hv : ts.filter (fun t => ws < t) = []
      · simp only [hv, if_pos] at ht
        rw [pruneMap_get_none hrest] at ht
        cases ht
      · simp only [hv, if_neg, ite_false] at ht
        unfold mapGet at ht
        rw [if_pos rfl] at ht
        unfold mapGet
        rw [if_pos rfl]
        exact (List.mem_filter.mp ht).1
    · unfold pruneMap at ht
      unfold mapGet
      rw [if_neg hk]
      by_cases hv : ts.filter (fun t => ws < t) = []
      · simp only [hv, if_pos] at ht
        exact ih hnodup' ht
      · simp only [hv, if_neg, ite_false] at ht
        unfold mapGet at ht
        rw [if_neg hk] at ht
        exact ih hnodup' ht

/-- `Math.ceil` of a positive quantity over 1000 is at least 1. -/
theorem mathCeilDiv_pos {x : Int} (hx : 0 < x) : 0 < mathCeilDiv x 1000 := by
  have h : (-x).ediv 1000 < 0 := Int.ediv_neg' (by omega) (by omega)
  unfold mathCeilDiv
  omega

/-- Unfolding of one rate limiter request once the dev skip is off. -/
theorem rateLimiterStep_eq (cfg : RateConfig) (m : ReqMap) (ip : String) (now : Int)
    (hskip : cfg.devSkip = false) :
    rateLimiterStep cfg m ip now =
      (let m1 := if m.length > 1000 then pruneMap m (now - cfg.windowMs) else m
       let recent := ((mapGet m1 ip).getD []).filter (fun t => now - cfg.windowMs < t)
       if recent.length ≥ cfg.maxRequests then
         (.rejected (recent.head?.map (fun t0 => mathCeilDiv (t0 + cfg.windowMs - now) 1000))
           cfg.maxRequests (mathCeilDiv cfg.windowMs 1000) recent.length, m1)
       else (.admitted, mapSet m1 ip (recent ++ [now]))) := by
  unfold rateLimiterStep
  rw [if_neg (by simp [hskip])]

/-! ## C8 — the limit is enforced per address -/

/-- C8: when an address has at least `maxRequests` timestamps inside the
current window, its next request is rejected: the reported retry-after is
computed from the oldest in-window request and is strictly positive; and a
request from a different address holding fewer than `maxRequests` in-window
timestamps is admitted, unaffected by the first address's state.  (Keys of
the request map are unique, and the hypotheses describe the map before the
opportunistic prune, which preserves in-window timestamps.) -/
theorem rateLimiter_enforces_limit (cfg : RateConfig) (m : ReqMap) (ip ip₂ : String)
    (now : Int)
    (hskip : cfg.devSkip = false)
    (hmax : 0 < cfg.maxRequests)
    (hnodup : (m.map Prod.fst).Nodup)
    (hfull : cfg.maxRequests ≤
      (((mapGet m ip).getD []).filter (fun t => now - cfg.windowMs < t)).length)
    (hother : (((mapGet m ip₂).getD []).filter (fun t => now - cfg.windowMs < t)).length <
      cfg.maxRequests) :
    (rateLimiterStep cfg m ip now).1 =
      .rejected
        (some (mathCeilDiv
          ((((mapGet m ip).getD []).filter (fun t => now - cfg.windowMs < t)).headD 0 +
            cfg.windowMs - now) 1000))
        cfg.maxRequests (mathCeilDiv cfg.windowMs 1000)
        (((mapGet m ip).getD []).filter (fun t => now - cfg.windowMs < t)).length ∧
    0 < mathCeilDiv
        ((((mapGet m ip).getD []).filter (fun t => now - cfg.windowMs < t)).headD 0 +
          cfg.windowMs - now) 1000 ∧
    (rateLimiterStep cfg m ip₂ now).1 = .admitted := by
  have hm1 : ∀ k : String,
      ((mapGet (if m.length > 1000 then pruneMap m (now - cfg.windowMs) else m) k).getD
        []).filter (fun t => now - cfg.windowMs < t) =
      ((mapGet m k).getD []).filter (fun t => now - cfg.windowMs < t) := by
    intro k
    by_cases hl : m.length > 1000
    · rw [if_pos hl]
      exact pruneMap_get_filter (now - cfg.windowMs) k hnodup
    · rw [if_neg hl]
  obtain ⟨a, as, hrec⟩ : ∃ a as,
      ((mapGet m ip).getD []).filter (fun t => now - cfg.windowMs < t) = a :: as := by
    cases hc : ((mapGet m ip).getD []).filter (fun t => now - cfg.windowMs < t) with
    | nil => rw [hc] at hfull; simp at hfull; omega
    | cons a as => exact ⟨a, as, rfl⟩
  have ha : now - cfg.windowMs < a := by
    have hmem : a ∈ ((mapGet m ip).getD []).filter (fun t => now - cfg.windowMs < t) := by
      rw [hrec]; exact List.mem_cons_self a as
    simpa using (List.mem_filter.mp hmem).2
  have hpos : 0 < mathCeilDiv (a + cfg.windowMs - now) 1000 :=
    mathCeilDiv_pos (by omega)
  refine ⟨?_, ?_, ?_⟩
  · rw [rateLimiterStep_eq cfg m ip now hskip]
    simp only [hm1 ip, hrec]
    rw [if_pos (by rw [← hrec]; exact hfull)]
    rfl
  · rw [hrec]
    exact hpos
  · rw [rateLimiterStep_eq cfg m ip₂ now hskip]
    simp only [hm1 ip₂]
    rw [if_neg (Nat.not_le.mpr hother)]

/-- Rate limiter configuration of the C8 witness: 3 requests / 900 s. -/
def wRateCfg : RateConfig := ⟨3, 900000, false⟩

/-- Request map of the C8 witness: one saturated address, one quiet one. -/
def wRateMap : ReqMap := [("1.2.3.4", [10, 20, 30]), ("5.6.7.8", [40])]

/-- Witness for C8: the saturated address is rejected with a positive
retry-after of 900 s computed from its oldest in-window request, while the
other address is admitted. -/
theorem rateLimiter_enforces_limit_witness :
    (rateLimiterStep wRateCfg wRateMap "1.2.3.4" 1000).1 =
      .rejected (some 900) 3 900 3 ∧
    (rateLimiterStep wRateCfg wRateMap "5.6.7.8" 1000).1 = .admitted := by
  have h := rateLimiter_enforces_limit wRateCfg wRateMap "1.2.3.4" "5.6.7.8" 1000
    rfl (by decide) (by decide) (by decide) (by decide)
  exact ⟨h.1.trans (by decide), h.2.2⟩

/-! ## C10 — rejected requests and the stored timestamp list -/

/-- Rate limiter configuration of the C10 counterexample: 1 request / 100 ms. -/
def c10Cfg : RateConfig := ⟨1, 100, false⟩

/-- A request map with 1001 addresses, so the opportunistic prune fires; the
first address holds one stale and one in-window timestamp. -/
def c10Map : ReqMap :=
  ("victim", [0, 100]) :: (List.range 1000).map (fun i => (toString i, [(100 : Int)]))

set_option maxRecDepth 100000 in
/-- Counterexample to C10 as stated: at time 150 the `victim` address is
rejected, yet its stored timestamp list changes from `[0, 100]` to `[100]` —
the prune that runs when the map exceeds 1000 keys rewrites the entry even on
a rejected request, so the list is not always left unchanged. -/
theorem rate_reject_changes_stored_list :
    (rateLimiterStep c10Cfg c10Map "victim" 150).1 = .rejected (some 1) 1 1 1 ∧
    mapGet (rateLimiterStep c10Cfg c10Map "victim" 150).2 "victim" = some [100] ∧
    mapGet c10Map "victim" = some [0, 100] ∧
    (some [(100 : Int)] : Option (List Int)) ≠ some [0, 100] :=
  ⟨rfl, rfl, rfl, by decide⟩

/-- C10 (amended): a rejected request appends nothing for its address — the
stored list's in-window timestamps are exactly those already recorded, and
every timestamp stored after the step was present before it.  (When the map
holds more than 1000 addresses the prune may drop out-of-window entries, so
the raw list can shrink, but rejected traffic never extends or refreshes the
address's lockout window.) -/
theorem rateLimiter_reject_no_extension (cfg : RateConfig) (m : ReqMap) (ip : String)
    (now : Int)
    (hskip : cfg.devSkip = false)
    (hnodup : (m.map Prod.fst).Nodup)
    (hfull : cfg.maxRequests ≤
      (((mapGet m ip).getD []).filter (fun t => now - cfg.windowMs < t)).length) :
    ((mapGet (rateLimiterStep cfg m ip now).2 ip).getD []).filter
        (fun t => now - cfg.windowMs < t) =
      ((mapGet m ip).getD []).filter (fun t => now - cfg.windowMs < t) ∧
    ∀ t : Int, t ∈ (mapGet (rateLimiterStep cfg m ip now).2 ip).getD [] →
      t ∈ (mapGet m ip).getD [] := by
  have hm1 : ((mapGet (if m.length > 1000 then pruneMap m (now - cfg.windowMs) else m)
        ip).getD []).filter (fun t => now - cfg.windowMs < t) =
      ((mapGet m ip).getD []).filter (fun t => now - cfg.windowMs < t) := by
    by_cases hl : m.length > 1000
    · rw [if_pos hl]
      exact pruneMap_get_filter (now - cfg.windowMs) ip hnodup
    · rw [if_neg hl]
  have hsub : ∀ t : Int,
      t ∈ (mapGet (if m.length > 1000 then pruneMap m (now - cfg.windowMs) else m)
        ip).getD [] → t ∈ (mapGet m ip).getD [] := by
    intro t ht
    by_cases hl : m.length > 1000
    · rw [if_pos hl] at ht
      exact pruneMap_get_subset hnodup ht
    · rw [if_neg hl] at ht
      exact ht
  rw [rateLimiterStep_eq cfg m ip now hskip]
  simp only []
  rw [if_pos (by rw [hm1]; exact hfull)]
  exact ⟨hm1, hsub⟩

/-- Witness for the amended C10: a concrete rejected request leaves the
address's in-window timestamps unchanged. -/
theorem rateLimiter_reject_no_extension_witness :
    ((mapGet (rateLimiterStep ⟨1, 100, false⟩ [("9.9.9.9", [60])] "9.9.9.9" 150).2
        "9.9.9.9").getD []).filter (fun t => (150 : Int) - 100 < t) =
      ((mapGet [("9.9.9.9", [60])] "9.9.9.9").getD []).filter
        (fun t => (150 : Int) - 100 < t) :=
  (rateLimiter_reject_no_extension ⟨1, 100, false⟩ [("9.9.9.9", [60])] "9.9.9.9" 150
    rfl (by decide) (by decide)).1
